import Mathlib

/-!
Shallow embedding of the diary / notification service (FastAPI + Tortoise ORM
backend) used to check the natural-language specification against the code.

The definitions below are translated from the repository sources:
  app/diary/service.py, app/diary/repository.py, app/diary/model.py,
  app/notification/service.py, app/notification/model.py,
  app/user/model.py, app/tag/model.py, app/ai/service.py.
Database state is made explicit (lists of rows); asynchronous calls become
explicit outcome parameters; Python exceptions become an `Except` monad.
-/

namespace Diary2

/-- Python exception values that the embedded code can raise. -/
inductive PyErr where
  | valueError (msg : String)
  | nameError (ident : String)
  | httpError (status : Nat) (detail : String)
  | multipleObjectsReturned
  deriving DecidableEq, Repr

/-- Worker for `dedupFirst`: `seen` collects the elements already emitted,
mirroring the `seen` set / `cleaned` list loop used in the sources. -/
def dedupFirstAux [DecidableEq α] (seen : List α) : List α → List α
  | [] => []
  | x :: xs =>
    if x ∈ seen then dedupFirstAux seen xs
    else x :: dedupFirstAux (x :: seen) xs

/-- De-duplicate a list keeping the first occurrence of each element,
preserving order. -/
def dedupFirst [DecidableEq α] (l : List α) : List α := dedupFirstAux [] l

/-- JSON values as stored in the `emotion_analysis_report` column and handled
by `json.loads` / `json.dumps`.  Numbers are a decimal mantissa with a scale:
`num m s` denotes m / 10^s. -/
inductive JVal where
  | jnull : JVal
  | jbool (b : Bool) : JVal
  | jnum (m : Int) (scale : Nat) : JVal
  | jstr (s : String) : JVal
  | jarr (elems : List JVal) : JVal
  | jobj (fields : List (String × JVal)) : JVal

abbrev JObj := List (String × JVal)

/-- Python `dict.get`: the value stored under a key (later duplicate keys win,
as in a `dict` built by `json.loads`), `none` when the key is missing. -/
def dget (d : JObj) (k : String) : Option JVal :=
  match d with
  | [] => none
  | (a, v) :: rest => match dget rest k with
    | some w => some w
    | none => if a = k then some v else none

/-! ### A small JSON parser modelling `json.loads`

Recursive descent over the character list with explicit fuel; the fuel is the
input length plus one, and every recursive call consumes at least one
character, so the fuel never runs out on real input. -/

def isJsonWs (c : Char) : Bool :=
  [' ', '\t', '\n', '\r'].contains c

def skipWs (cs : List Char) : List Char := cs.dropWhile isJsonWs

/-- Numeric value of one hexadecimal digit, by code point ranges. -/
def hexDigitVal (c : Char) : Option Nat :=
  let n := c.toNat
  if 48 ≤ n ∧ n ≤ 57 then some (n - 48)
  else if 97 ≤ n ∧ n ≤ 102 then some (n - 87)
  else if 65 ≤ n ∧ n ≤ 70 then some (n - 55)
  else none

/-- Translation of the character after a backslash in a JSON string literal. -/
def escTranslate (e : Char) : Option Char :=
  if e = 'n' then some (Char.ofNat 10)
  else if e = 't' then some (Char.ofNat 9)
  else if e = 'r' then some (Char.ofNat 13)
  else if e = 'b' then some (Char.ofNat 8)
  else if e = 'f' then some (Char.ofNat 12)
  else if e = '"' ∨ e = '\\' ∨ e = '/' then some e
  else none

def isDigitChar (c : Char) : Bool := 48 ≤ c.toNat ∧ c.toNat ≤ 57

/-- Parse the body of a JSON string (the opening quote already consumed). -/
def parseJString (fuel : Nat) (acc : String) (cs : List Char) :
    Option (String × List Char) :=
  match fuel with
  | 0 => none
  | fuel + 1 =>
    match cs with
    | [] => none
    | '"' :: rest => some (acc, rest)
    | '\\' :: 'u' :: h1 :: h2 :: h3 :: h4 :: rest =>
      match hexDigitVal h1, hexDigitVal h2, hexDigitVal h3, hexDigitVal h4 with
      | some a, some b, some c, some d =>
        parseJString fuel
          (acc.push (Char.ofNat (4096 * a + 256 * b + 16 * c + d))) rest
      | _, _, _, _ => none
    | '\\' :: e :: rest =>
      match escTranslate e with
      | some ch => parseJString fuel (acc.push ch) rest
      | none => none
    | c :: rest => parseJString fuel (acc.push c) rest

/-- Parse a run of decimal digits, returning their value and count. -/
def parseDigits (fuel : Nat) (n : Nat) (count : Nat) (cs : List Char) :
    Nat × Nat × List Char :=
  match fuel with
  | 0 => (n, count, cs)
  | fuel + 1 =>
    match cs with
    | c :: rest =>
      if isDigitChar c then
        parseDigits fuel (n * 10 + (c.toNat - 48)) (count + 1) rest
      else (n, count, cs)
    | [] => (n, count, cs)

mutual

/-- Parse a single JSON value. -/
def parseJVal (fuel : Nat) (cs : List Char) : Option (JVal × List Char) :=
  match fuel with
  | 0 => none
  | fuel + 1 =>
    match skipWs cs with
    | [] => none
    | '"' :: rest =>
      (parseJString fuel "" rest).map (fun (s, r) => (JVal.jstr s, r))
    | 't' :: 'r' :: 'u' :: 'e' :: rest => some (JVal.jbool true, rest)
    | 'f' :: 'a' :: 'l' :: 's' :: 'e' :: rest => some (JVal.jbool false, rest)
    | 'n' :: 'u' :: 'l' :: 'l' :: rest => some (JVal.jnull, rest)
    | '[' :: rest =>
      match skipWs rest with
      | ']' :: rest' => some (JVal.jarr [], rest')
      | rest' => (parseJItems fuel rest').map (fun (xs, r) => (JVal.jarr xs, r))
    | '\x7b' :: rest =>
      match skipWs rest with
      | '\x7d' :: rest' => some (JVal.jobj [], rest')
      | rest' => (parseJFields fuel rest').map (fun (fs, r) => (JVal.jobj fs, r))
    | '-' :: rest =>
      (parseJNum fuel rest).map (fun (m, s, r) => (JVal.jnum (-(m : Int)) s, r))
    | c :: rest =>
      if isDigitChar c then
        (parseJNum fuel (c :: rest)).map (fun (m, s, r) => (JVal.jnum (m : Int) s, r))
      else none

/-- Parse an unsigned number: digits with an optional fractional part.
Returns the scaled mantissa and the scale. -/
def parseJNum (fuel : Nat) (cs : List Char) : Option (Nat × Nat × List Char) :=
  match fuel with
  | 0 => none
  | fuel + 1 =>
    match parseDigits fuel 0 0 cs with
    | (_, 0, _) => none
    | (n, _, rest) =>
      match rest with
      | '.' :: rest' =>
        match parseDigits fuel 0 0 rest' with
        | (_, 0, _) => none
        | (f, fc, rest'') => some (n * 10 ^ fc + f, fc, rest'')
      | _ => some (n, 0, rest)

/-- Parse the comma-separated elements of an array (after a non-empty peek). -/
def parseJItems (fuel : Nat) (cs : List Char) : Option (List JVal × List Char) :=
  match fuel with
  | 0 => none
  | fuel + 1 =>
    match parseJVal fuel cs with
    | none => none
    | some (v, rest) =>
      match skipWs rest with
      | ',' :: rest' =>
        (parseJItems fuel rest').map (fun (xs, r) => (v :: xs, r))
      | ']' :: rest' => some ([v], rest')
      | _ => none

/-- Parse the comma-separated fields of an object (after a non-empty peek). -/
def parseJFields (fuel : Nat) (cs : List Char) : Option (JObj × List Char) :=
  match fuel with
  | 0 => none
  | fuel + 1 =>
    match skipWs cs with
    | '"' :: rest =>
      match parseJString fuel "" rest with
      | none => none
      | some (k, rest') =>
        match skipWs rest' with
        | ':' :: rest'' =>
          match parseJVal fuel rest'' with
          | none => none
          | some (v, rest3) =>
            match skipWs rest3 with
            | ',' :: rest4 =>
              (parseJFields fuel rest4).map (fun (fs, r) => ((k, v) :: fs, r))
            | '\x7d' :: rest4 => some ([(k, v)], rest4)
            | _ => none
        | _ => none
    | _ => none

end

/-- Model of Python `json.loads`: parse one value and require that only
whitespace remains; any failure is `none` (a `JSONDecodeError`). -/
def jsonLoads (s : String) : Option JVal :=
  match parseJVal (s.length + 1) s.toList with
  | some (v, rest) => if skipWs rest = [] then some v else none
  | none => none

end Diary2

example : Diary2.jsonLoads "\x7b\"main_emotion\": \"부정\"\x7d" =
    some (Diary2.JVal.jobj [("main_emotion", Diary2.JVal.jstr "부정")]) := rfl

example : Diary2.jsonLoads "not json" = none := rfl

example : Diary2.jsonLoads "\x7b\"a\": 1.5, \"b\": [true, null]\x7d" =
    some (Diary2.JVal.jobj [("a", Diary2.JVal.jnum 15 1), ("b", Diary2.JVal.jarr [Diary2.JVal.jbool true, Diary2.JVal.jnull])]) := rfl

example : Diary2.jsonLoads "\"부정\"" = some (Diary2.JVal.jstr "부정") := rfl

namespace Diary2

/-! ### Model of `json.dumps(..., ensure_ascii=False)` used by `_dumps_ea` -/

/-- Escaped spelling of one character of a JSON string literal. -/
def jsonEscapeOne (c : Char) : List Char :=
  if c = '"' ∨ c = '\\' then ['\\', c]
  else if c = Char.ofNat 10 then ['\\', 'n']
  else if c = Char.ofNat 9 then ['\\', 't']
  else if c = Char.ofNat 13 then ['\\', 'r']
  else [c]

/-- Escape a string for a JSON string literal (non-ASCII kept verbatim, as
with `ensure_ascii=False`). -/
def jsonEscape (s : String) : String :=
  String.mk ((s.toList.map jsonEscapeOne).flatten)

/-- Pad the fractional part of a decimal to `s` digits. -/
def padDigits (s : Nat) (f : Nat) : String :=
  let t := toString f
  String.mk (List.replicate (s - t.length) '0') ++ t

/-- Decimal rendering of `jnum m scale` (value m / 10^scale). -/
def numRepr (m : Int) (scale : Nat) : String :=
  if scale = 0 then toString m
  else
    let d : Nat := 10 ^ scale
    let a : Nat := m.natAbs
    (if m < 0 then "-" else "") ++ toString (a / d) ++ "." ++ padDigits scale (a % d)

mutual

/-- Model of `json.dumps` with default separators. -/
def jdumps : JVal → String
  | .jnull => "null"
  | .jbool true => "true"
  | .jbool false => "false"
  | .jnum m s => numRepr m s
  | .jstr s => "\"" ++ jsonEscape s ++ "\""
  | .jarr xs => "[" ++ jdumpsList xs ++ "]"
  | .jobj fs => "\x7b" ++ jdumpsFields fs ++ "\x7d"

def jdumpsList : List JVal → String
  | [] => ""
  | [x] => jdumps x
  | x :: y :: xs => jdumps x ++ ", " ++ jdumpsList (y :: xs)

def jdumpsFields : List (String × JVal) → String
  | [] => ""
  | [(k, v)] => "\"" ++ jsonEscape k ++ "\": " ++ jdumps v
  | (k, v) :: g :: fs =>
    "\"" ++ jsonEscape k ++ "\": " ++ jdumps v ++ ", " ++ jdumpsFields (g :: fs)

end

/-! ### Model of Python `str.strip()` and `str()` -/

/-- Characters removed by Python `str.strip()` with no argument (the ASCII
whitespace characters; the exotic Unicode space code points are not needed by
any theorem below). -/
def isPyWs (c : Char) : Bool :=
  c = ' ' || c = '\t' || c = '\n' || c = '\r' || c = '\x0b' || c = '\x0c'

/-- Python `str.strip()`: drop leading and trailing whitespace. -/
def pyStrip (s : String) : String :=
  String.mk (((s.toList.dropWhile isPyWs).reverse.dropWhile isPyWs).reverse)

/-- A single-quote character, used by Python `repr` of strings. -/
def pyQuote : Char := Char.ofNat 39

mutual

/-- Python `repr` of a JSON-shaped value. -/
def pyRepr : JVal → String
  | .jnull => "None"
  | .jbool true => "True"
  | .jbool false => "False"
  | .jnum m s => numRepr m s
  | .jstr s => (String.singleton pyQuote) ++ s ++ (String.singleton pyQuote)
  | .jarr xs => "[" ++ pyReprList xs ++ "]"
  | .jobj fs => "\x7b" ++ pyReprFields fs ++ "\x7d"

def pyReprList : List JVal → String
  | [] => ""
  | [x] => pyRepr x
  | x :: y :: xs => pyRepr x ++ ", " ++ pyReprList (y :: xs)

def pyReprFields : List (String × JVal) → String
  | [] => ""
  | [(k, v)] =>
    (String.singleton pyQuote) ++ k ++ (String.singleton pyQuote) ++ ": " ++ pyRepr v
  | (k, v) :: g :: fs =>
    (String.singleton pyQuote) ++ k ++ (String.singleton pyQuote) ++ ": " ++ pyRepr v
      ++ ", " ++ pyReprFields (g :: fs)

end

/-- Python `str()`: a string is returned as is, everything else through `repr`. -/
def pyToStr : JVal → String
  | .jstr s => s
  | v => pyRepr v

/-! ### `_norm_emotion` and the sentiment aggregation, diary/service.py -/

/-- The three values of `MainEmotionType` (diary/model.py): positive,
negative, neutral in Korean. -/
def mainEmotionValues : List String := ["긍정", "부정", "중립"]

/-- Function `_norm_emotion` (diary/service.py): `None` passes through; any other value
is coerced with `str(e).strip()`; the empty string raises `ValueError`; only
the three `MainEmotionType` values are accepted, anything else raises
`ValueError`.  (The `isinstance(e, MainEmotionType)` branch never fires here:
values reaching it from a stored payload are plain JSON values.) -/
def norm_emotion : Option JVal → Except PyErr (Option String)
  | none => .ok none
  | some v =>
    let s := pyStrip (pyToStr v)
    if s = "" then .error (.valueError "main_emotion must not be empty")
    else if mainEmotionValues.contains s then .ok (some s)
    else .error (.valueError ("emotion value not allowed: " ++ s))

/-- The shapes in which a stored `emotion_analysis_report` reaches the
aggregation loop: absent, a JSON-encoded string, or a structured object. -/
inductive Rep where
  | rnone
  | rstr (s : String)
  | robj (d : JObj)

/-- The defensive coercion at the top of the `emotion_stats` loop: `None`
becomes an empty dict; a string is `json.loads`-parsed and kept only when the
parse yields a dict; a dict is kept; anything else becomes an empty dict. -/
def rep_to_dict : Rep → JObj
  | .rnone => []
  | .rstr s =>
    match jsonLoads s with
    | some (.jobj d) => d
    | _ => []
  | .robj d => d

/-- Values fetched with `dict.get` read back as Python `None` both when the
key is absent and when it holds JSON null. -/
def pyNone : Option JVal → Option JVal
  | some .jnull => none
  | x => x

/-- The `main_emotion` extraction of `emotion_stats`, with the fallback to a
nested `emotion_analysis` sub-object for legacy-shaped payloads. -/
def extract_me (r : Rep) : Option JVal :=
  let d := rep_to_dict r
  match pyNone (dget d "main_emotion") with
  | some v => some v
  | none =>
    match dget d "emotion_analysis" with
    | some (.jobj ea) => pyNone (dget ea "main_emotion")
    | _ => none

/-- One row's contribution to the counter: extraction then normalisation. -/
def extract_label (r : Rep) : Except PyErr (Option String) :=
  norm_emotion (extract_me r)

/-- Python `Counter[label] += 1` on an insertion-ordered association list
(`collections.Counter` keeps first-insertion key order). -/
def bump : List (String × Nat) → String → List (String × Nat)
  | [], k => [(k, 1)]
  | (a, n) :: t, k => if a = k then (a, n + 1) :: t else (a, n) :: bump t k

/-- The aggregation loop of `DiaryService.emotion_stats`: an exception from
`_norm_emotion` propagates; a `None` label is skipped; otherwise the counter
is bumped.  (`_norm_emotion` never returns an empty string - it raises - so
the `if label:` truthiness test is exactly the `Option` match.) -/
def statsLoop : List Rep → List (String × Nat) → Except PyErr (List (String × Nat))
  | [], c => .ok c
  | r :: rs, c =>
    match extract_label r with
    | .error e => .error e
    | .ok none => statsLoop rs c
    | .ok (some l) => statsLoop rs (bump c l)

/-- Service method `DiaryService.emotion_stats` restricted to its aggregation part: the rows
have already been fetched by `list_by_filters`. -/
def emotion_stats (rows : List Rep) : Except PyErr (List (String × Nat)) :=
  statsLoop rows []

end Diary2

namespace Diary2

/-! ### Relational state for the diary pipeline

Tables of diary/model.py, tag/model.py: diaries, the tag registry (unique
names), the diary-tag join rows and the image rows.  Tag identities are the
unique names themselves; `next_id` models the id sequence of diaries. -/

structure DiaryRow where
  id : Nat
  title : String
  content : String
  emotion_analysis_report : Rep
  user_id : Nat

structure ImageRow where
  diary_id : Nat
  order : Nat
  url : String

structure DB where
  diaries : List DiaryRow
  tags : List String
  tag_links : List (Nat × String)
  images : List ImageRow
  next_id : Nat

/-! ### repository.replace_tags / replace_images -/

/-- Split one tag entry on commas (Python `s.split(",")`). -/
def splitCommaAux : List Char → List Char → List String
  | [], acc => [String.mk acc.reverse]
  | c :: cs, acc =>
    if c = ',' then String.mk acc.reverse :: splitCommaAux cs []
    else splitCommaAux cs (c :: acc)

def splitComma (s : String) : List String := splitCommaAux s.toList []

/-- The comprehension `[p.strip() for p in s.split(",") if p.strip()]` from replace_tags. -/
def tag_pieces (s : String) : List String :=
  ((splitComma s).map pyStrip).filter (fun p => p ≠ "")

/-- The normalised tag list replace_tags computes for a NON-empty names list:
all comma-separated pieces in order, stripped, empties dropped, de-duplicated
keeping the first occurrence. -/
def cleaned_tags (names : List String) : List String :=
  dedupFirst ((names.map tag_pieces).flatten)

/-- Model of `Tag.get_or_create(name=...)` against the registry of unique tag names. -/
def tag_get_or_create (registry : List String) (name : String) : List String :=
  if registry.contains name then registry else registry ++ [name]

/-- Net effect of the committed clear-then-add loop of replace_tags: all join
rows of the diary removed, one fresh join row per cleaned name appended. -/
def replace_tags_effect (db : DB) (did : Nat) (cleaned : List String) : DB :=
  { db with
    tags := cleaned.foldl tag_get_or_create db.tags
    tag_links :=
      db.tag_links.filter (fun l => l.1 ≠ did) ++ cleaned.map (fun n => (did, n)) }

/-- repository.replace_tags on its own connection (the `using_db is None`
branch, the one DiaryService.update uses).  The comma-split/strip/dedup block
is indented INSIDE the `for s in names` loop in the source, so with an empty
names list the loop body never runs and the local `cleaned` is never bound;
the subsequent `for name in cleaned` then raises NameError after the clear,
and the surrounding transaction rolls the clear back. -/
def replace_tags (db : DB) (did : Nat) (names : List String) :
    DB × Except PyErr Unit :=
  match names with
  | [] => (db, .error (.nameError "cleaned"))
  | _ :: _ => (replace_tags_effect db did (cleaned_tags names), .ok ())

/-- Image URL normalisation in replace_images: strip, drop empties,
de-duplicate keeping first occurrence (order preserved). -/
def cleaned_images (urls : List String) : List String :=
  dedupFirst ((urls.map pyStrip).filter (fun s => s ≠ ""))

/-- Fresh image rows with order = i, i+1, ... in list order. -/
def image_rows (did : Nat) : Nat → List String → List ImageRow
  | _, [] => []
  | i, u :: us => ⟨did, i, u⟩ :: image_rows did (i + 1) us

/-- repository.replace_images: delete the diary's image rows, bulk-insert the
normalised URLs with order 1..N. -/
def replace_images (db : DB) (did : Nat) (urls : List String) : DB :=
  { db with
    images :=
      db.images.filter (fun i => i.diary_id ≠ did)
        ++ image_rows did 1 (cleaned_images urls) }

/-! ### repository.create and the save guard of Diary -/

/-- Function `_dumps_ea` (diary/repository.py): `None` passes through, a dict (or the
dumped pydantic model) becomes a JSON-encoded STRING. -/
def dumps_ea : Option JObj → Rep
  | none => .rnone
  | some d => .rstr (jdumps (.jobj d))

/-- The guard in the overridden `Diary.save` (diary/model.py): a non-None
`emotion_analysis_report` must be a dict (JSON object); a string or anything
else raises ValueError before the row is written. -/
def diary_save_guard : Rep → Except PyErr Unit
  | .rnone => .ok ()
  | .robj _ => .ok ()
  | .rstr _ => .error (.valueError "emotion_analysis_report must be a dict")

/-- The create request as DiaryService.create consumes it (the fields it
reads from the payload: user_id, title, content, tags, image_urls and the
optional pre-supplied report). -/
structure DiaryCreatePayload where
  user_id : Nat
  title : String
  content : String
  tags : List String
  image_urls : List String
  emotion_analysis_report : Option JObj

/-- repository.create: `Diary.create` instantiates the row and runs the
overridden `save`, so the guard sees the `_dumps_ea`-converted report. -/
def repo_create (db : DB) (p : DiaryCreatePayload) : Except PyErr (DB × Nat) :=
  let ear := dumps_ea p.emotion_analysis_report
  match diary_save_guard ear with
  | .error e => .error e
  | .ok _ =>
    let did := db.next_id
    .ok ({ db with
            diaries := db.diaries ++ [⟨did, p.title, p.content, ear, p.user_id⟩]
            next_id := db.next_id + 1 },
         did)

/-- repository.update_partially restricted to the patch the AI step writes:
the report field (the `main_emotion` key of the patch has no column on Diary
and is dropped).  `diary.save()` runs the guard again. -/
def repo_update_report (db : DB) (did : Nat) (rep : Rep) : Except PyErr DB :=
  match diary_save_guard rep with
  | .error e => .error e
  | .ok _ =>
    .ok { db with
          diaries := db.diaries.map
            (fun d => if d.id = did then { d with emotion_analysis_report := rep } else d) }

/-! ### The response projection (service.to_diary_response) -/

/-- Lexicographic code-point comparison of strings (the order in which
Python and the database compare the unique tag names). -/
def strLtAux : List Char → List Char → Bool
  | [], [] => false
  | [], _ :: _ => true
  | _ :: _, [] => false
  | a :: as, b :: bs =>
    if a.toNat < b.toNat then true
    else if b.toNat < a.toNat then false
    else strLtAux as bs

def strLt (a b : String) : Bool := strLtAux a.toList b.toList

/-- Insertion into a name-sorted list. -/
def insertByName (x : String) : List String → List String
  | [] => [x]
  | y :: ys => if strLt x y then x :: y :: ys else y :: insertByName x ys

def sortNames (l : List String) : List String := l.foldr insertByName []

/-- The tag names of a diary as the response sees them: `Tag.Meta` declares
`ordering = ["name"]`, which the ORM applies to the prefetch query, so the
projection lists tags sorted by name, not in insertion order. -/
def diary_tag_names (db : DB) (did : Nat) : List String :=
  sortNames ((db.tag_links.filter (fun l => l.1 = did)).map (fun l => l.2))

/-- The (order, url) pairs of a diary's images in stored order. -/
def diary_images_out (db : DB) (did : Nat) : List (Nat × String) :=
  (db.images.filter (fun i => i.diary_id = did)).map (fun i => (i.order, i.url))

/-- The DiaryResponse projection as built by service.to_diary_response. -/
structure DiaryResponseM where
  id : Nat
  user_id : Nat
  title : String
  content : String
  emotion_analysis_report : Rep
  tags : List String
  image_urls : List (Nat × String)

def find_diary (db : DB) (did : Nat) : Option DiaryRow :=
  db.diaries.find? (fun d => d.id = did)

def to_diary_response (db : DB) (d : DiaryRow) : DiaryResponseM :=
  ⟨d.id, d.user_id, d.title, d.content, d.emotion_analysis_report,
   diary_tag_names db d.id, diary_images_out db d.id⟩

/-! ### DiaryService.create -/

/-- A completed analyze_diary_emotion call: the predicted emotion and the
dict `to_dict` extracts from the pydantic result. -/
structure AIResult where
  main_emotion : String
  report : JObj

/-- How the optional AI step plays out: `_resolve_ai()` returned None, the
bounded call was cancelled by `anyio.move_on_after(6)` before completing, the
call raised (caught and logged), or it returned in time. -/
inductive AIOutcome where
  | disabled
  | timeout
  | failure
  | ok (res : AIResult)

/-- Python truthiness of `payload.emotion_analysis_report` as tested by
`not payload.emotion_analysis_report` (None and an empty dict are falsy). -/
def ear_truthy : Option JObj → Bool
  | none => false
  | some [] => false
  | some (_ :: _) => true

/-- The final re-read and projection of DiaryService.create (step 3). -/
def fresh_response (db : DB) (did : Nat) : DB × Except PyErr DiaryResponseM :=
  match find_diary db did with
  | some d => (db, .ok (to_diary_response db d))
  | none => (db, .error (.valueError "fresh diary not found"))

/-- DiaryService.create.  Step 1 runs in one transaction: insert the entry,
then replace tags (only when the payload supplies a non-empty list) and
images; an exception aborts the whole transaction.  After the commit the
length check runs: a non-empty stripped content shorter than 10 characters
raises HTTP 422 - the committed rows are left in place.  Then the optional AI
step, whose timeout or failure is swallowed; a result in time is written back
with update_partially and spliced over the re-read response. -/
def service_create (db : DB) (p : DiaryCreatePayload) (ai : AIOutcome) :
    DB × Except PyErr DiaryResponseM :=
  match repo_create db p with
  | .error e => (db, .error e)
  | .ok (db1, did) =>
    let db2 :=
      match p.tags with
      | [] => db1
      | _ :: _ => replace_tags_effect db1 did (cleaned_tags p.tags)
    let db3 :=
      match p.image_urls with
      | [] => db2
      | _ :: _ => replace_images db2 did p.image_urls
    let ct := pyStrip p.content
    if ct ≠ "" ∧ ct.length < 10 then
      (db3, .error (.httpError 422 "content must be longer than 10 characters"))
    else if ear_truthy p.emotion_analysis_report then fresh_response db3 did
    else
      match ai with
      | .disabled => fresh_response db3 did
      | .timeout => fresh_response db3 did
      | .failure => fresh_response db3 did
      | .ok res =>
        let db4 :=
          match repo_update_report db3 did (.robj res.report) with
          | .ok db' => db'
          | .error _ => db3
        match fresh_response db4 did with
        | (db5, .ok resp) =>
          (db5, .ok { resp with emotion_analysis_report := .robj res.report })
        | other => other

end Diary2

namespace Diary2

/-! ### Notification targeting (app/notification/service.py)

Rows of user/model.py (User, EmotionStats, UserNotification) and
notification/model.py (Notification); `created_today` stands for a
`created_at` timestamp inside the [00:00, 23:59:59.999999) range the
weekly check queries for. -/

structure NUser where
  id : Nat
  nickname : String
  phonenumber : String
  receive_notifications : Bool

inductive NotificationType where
  | PUSH
  | EMAIL
  | SMS
  deriving DecidableEq, Repr

structure NotificationRow where
  id : Nat
  weekday : Nat
  content : String
  notification_type : NotificationType

structure EmotionStatRow where
  user_id : Nat
  period_type : String
  emotion_type : String
  frequency : Int
  created_today : Bool

structure UserNotificationRow where
  id : Nat
  user_id : Nat
  notification_id : Nat

structure NotifDB where
  users : List NUser
  stats : List EmotionStatRow
  notifications : List NotificationRow
  user_notifications : List UserNotificationRow

/-- Value of `PeriodType.WEEKLY` (user/model.py). -/
def weeklyValue : String := "주간"

/-- Value of `MainEmotionType.NEGATIVE` (diary/model.py). -/
def negativeValue : String := "부정"

/-- The filter of the `EmotionStats.get_or_none` call in
check_weekly_negative_emotions. -/
def stat_filter (uid : Nat) (s : EmotionStatRow) : Bool :=
  s.user_id = uid && s.period_type = weeklyValue && s.created_today
    && s.emotion_type = negativeValue

/-- Model of `get_or_none`: no matching row is None, one row is returned, several
matching rows raise MultipleObjectsReturned. -/
def get_or_none_stat (stats : List EmotionStatRow) (uid : Nat) :
    Except PyErr (Option EmotionStatRow) :=
  match stats.filter (stat_filter uid) with
  | [] => .ok none
  | [s] => .ok (some s)
  | _ :: _ :: _ => .error .multipleObjectsReturned

/-- check_weekly_negative_emotions: the user's weekly negative stat row
created today must exist and have frequency at least 5. -/
def check_weekly_negative_emotions (stats : List EmotionStatRow) (uid : Nat) :
    Except PyErr Bool :=
  (get_or_none_stat stats uid).map fun
    | none => false
    | some s => decide ((5 : Int) ≤ s.frequency)

def get_or_none_user_notif (uns : List UserNotificationRow) (uid : Nat) :
    Except PyErr (Option UserNotificationRow) :=
  match uns.filter (fun r => r.user_id = uid) with
  | [] => .ok none
  | [r] => .ok (some r)
  | _ :: _ :: _ => .error .multipleObjectsReturned

/-- The prefetched `user_notif.notification` foreign key. -/
def find_notification (ns : List NotificationRow) (nid : Nat) :
    Option NotificationRow :=
  ns.find? (fun n => n.id = nid)

/-- Model of `Notification.get_or_none(weekday=..., notification_type=...)`. -/
def get_or_none_notification (ns : List NotificationRow) (wd : Nat)
    (ty : NotificationType) : Except PyErr (Option NotificationRow) :=
  match ns.filter (fun n => n.weekday = wd && n.notification_type = ty) with
  | [] => .ok none
  | [n] => .ok (some n)
  | _ :: _ :: _ => .error .multipleObjectsReturned

/-- One `(user, message, notification_type)` delivery target, carrying the
user fields the dispatcher reads. -/
structure Target where
  user_id : Nat
  nickname : String
  phonenumber : String
  message : String
  notification_type : NotificationType

/-- The write `user_notif.notification = notif; await user_notif.save()`: the user's
assignment row is redirected to the resolved notification. -/
def overwrite_assignment (uns : List UserNotificationRow)
    (un : UserNotificationRow) (nid : Nat) : List UserNotificationRow :=
  uns.map (fun r => if r.id = un.id then { r with notification_id := nid } else r)

/-- The body of the per-user loop of get_notification_targets: the weekly
negative check; skip (`continue`) when the user has no UserNotification row
or its notification cannot be resolved - so the create-if-absent `else`
branch of the source is dead code; resolve today's master notification for
the user's channel, raising HTTP 500 when the seed has no such row;
overwrite the assignment when it differs; emit the target. -/
def process_user (db : NotifDB) (wd : Nat) (u : NUser) :
    Except PyErr (NotifDB × Option Target) :=
  match check_weekly_negative_emotions db.stats u.id with
  | .error e => .error e
  | .ok false => .ok (db, none)
  | .ok true =>
    match get_or_none_user_notif db.user_notifications u.id with
    | .error e => .error e
    | .ok none => .ok (db, none)
    | .ok (some un) =>
      match find_notification db.notifications un.notification_id with
      | none => .ok (db, none)
      | some current =>
        match get_or_none_notification db.notifications wd
            current.notification_type with
        | .error e => .error e
        | .ok none => .error (.httpError 500 "notification missing from master table")
        | .ok (some n) =>
          let db' :=
            if un.notification_id ≠ n.id then
              { db with
                user_notifications :=
                  overwrite_assignment db.user_notifications un n.id }
            else db
          .ok (db', some ⟨u.id, u.nickname, u.phonenumber, n.content,
                          n.notification_type⟩)

def targets_loop (wd : Nat) :
    List NUser → NotifDB → List Target → Except PyErr (NotifDB × List Target)
  | [], db, acc => .ok (db, acc)
  | u :: us, db, acc =>
    match process_user db wd u with
    | .error e => .error e
    | .ok (db', none) => targets_loop wd us db' acc
    | .ok (db', some t) => targets_loop wd us db' (acc ++ [t])

/-- get_notification_targets: sweep the notifications-enabled users with
today's weekday. -/
def get_notification_targets (db : NotifDB) (wd : Nat) :
    Except PyErr (NotifDB × List Target) :=
  targets_loop wd (db.users.filter (fun u => u.receive_notifications)) db []

/-! ### The dispatcher (send_notifications and the channel adapters) -/

/-- Behaviour of one underlying transport call (the SDK / SMTP send). -/
inductive SendOutcome where
  | success
  | raises

def adapter_send : SendOutcome → Except PyErr Unit
  | .success => .ok ()
  | .raises => .error (.valueError "transport send failed")

/-- send_sms: the SolapiMessageService send runs inside try/except; a raised
exception is printed and swallowed, the adapter returns normally. -/
def send_sms (o : SendOutcome) : Except PyErr Unit :=
  match adapter_send o with
  | .ok _ => .ok ()
  | .error _ => .ok ()

/-- send_email: the SMTP session runs inside try/except; a raised exception
is printed and swallowed. -/
def send_email (o : SendOutcome) : Except PyErr Unit :=
  match adapter_send o with
  | .ok _ => .ok ()
  | .error _ => .ok ()

/-- send_push_notification only prints (the Firebase code is commented out). -/
def send_push_notification (_ : SendOutcome) : Except PyErr Unit := .ok ()

/-- The loop of send_notifications with TEST_MODE = False: dispatch on the
target's channel, then append `(user_id, nickname)` to `sent`
unconditionally; an exception escaping an adapter would abort the loop.
`transport` gives the behaviour of the i-th target's underlying send. -/
def send_loop (transport : Nat → SendOutcome) :
    Nat → List Target → List (Nat × String) → Except PyErr (List (Nat × String))
  | _, [], sent => .ok sent
  | i, t :: ts, sent =>
    let r :=
      match t.notification_type with
      | .PUSH => send_push_notification (transport i)
      | .SMS => send_sms (transport i)
      | .EMAIL => send_email (transport i)
    match r with
    | .error e => .error e
    | .ok _ => send_loop transport (i + 1) ts (sent ++ [(t.user_id, t.nickname)])

def send_notifications (targets : List Target) (transport : Nat → SendOutcome) :
    Except PyErr (List (Nat × String)) :=
  send_loop transport 0 targets []

end Diary2

namespace Diary2

/-! ### Lemmas about the aggregation loop -/

theorem statsLoop_append (r : Rep) (rows : List Rep) :
    ∀ c : List (String × Nat),
      statsLoop (rows ++ [r]) c =
        (statsLoop rows c).bind (fun m => statsLoop [r] m) := by
  induction rows with
  | nil => intro c; simp [statsLoop, Except.bind]
  | cons h t ih =>
    intro c
    show statsLoop (h :: (t ++ [r])) c = _
    cases hx : extract_label h with
    | error e => simp [statsLoop, hx, Except.bind]
    | ok v =>
      cases v with
      | none => simp [statsLoop, hx, ih c]
      | some l => simp [statsLoop, hx, ih (bump c l)]

/-- A stored payload that is a structured object carrying the negative label. -/
def negObjRep : Rep :=
  .robj [("main_emotion", .jstr "부정"), ("confidence", .jnum 1 0)]

/-- The same payload JSON-encoded as a string. -/
def negStrRep : Rep := .rstr "\x7b\"main_emotion\": \"부정\", \"confidence\": 0.9\x7d"

/-- A legacy-shaped payload with the label nested under `emotion_analysis`. -/
def negNestedRep : Rep :=
  .robj [("emotion_analysis", .jobj [("main_emotion", .jstr "부정")])]

/-- A stored payload that is a string `json.loads` cannot parse. -/
def badStrRep : Rep := .rstr "no json here"

/-- C7: sentiment aggregation counts an entry under the negative label when
its payload carries main_emotion 부정 as a structured object, as a
JSON-encoded string of the same object, or nested under an emotion_analysis
sub-object; an entry whose payload is absent or an unparseable string
contributes nothing to any label's count. -/
theorem c7_sentiment_label_extraction (rows : List Rep) (m : List (String × Nat))
    (h : emotion_stats rows = .ok m) :
    emotion_stats (rows ++ [negObjRep]) = .ok (bump m "부정") ∧
    emotion_stats (rows ++ [negStrRep]) = .ok (bump m "부정") ∧
    emotion_stats (rows ++ [negNestedRep]) = .ok (bump m "부정") ∧
    emotion_stats (rows ++ [Rep.rnone]) = .ok m ∧
    emotion_stats (rows ++ [badStrRep]) = .ok m := by
  have hb : statsLoop rows [] = .ok m := h
  refine ⟨?_, ?_, ?_, ?_, ?_⟩ <;>
    (show statsLoop _ [] = _; rw [statsLoop_append _ rows []]; rw [hb]; rfl)

/-- Witness for C7 at the empty collection of previous rows. -/
theorem c7_sentiment_label_extraction_witness :
    emotion_stats ([] : List Rep) = .ok [] ∧
    (emotion_stats ([] ++ [negObjRep]) = .ok (bump [] "부정") ∧
     emotion_stats ([] ++ [negStrRep]) = .ok (bump [] "부정") ∧
     emotion_stats ([] ++ [negNestedRep]) = .ok (bump [] "부정") ∧
     emotion_stats ([] ++ [Rep.rnone]) = .ok [] ∧
     emotion_stats ([] ++ [badStrRep]) = .ok []) :=
  ⟨rfl, c7_sentiment_label_extraction [] [] rfl⟩

end Diary2

namespace Diary2

/-! ### C10: the aggregation is not total over stored payloads -/

/-- Prefix test on character lists (hay, needle). -/
def charsStartWith : List Char → List Char → Bool
  | _, [] => true
  | [], _ :: _ => false
  | a :: as, b :: bs => a = b && charsStartWith as bs

/-- Substring test on character lists: Python `needle in hay`. -/
def charsContain (hay needle : List Char) : Bool :=
  match hay with
  | [] => charsStartWith [] needle
  | _ :: t => charsStartWith hay needle || charsContain t needle

def strContains (hay needle : String) : Bool :=
  charsContain hay.toList needle.toList

/-- Python `str.lower()` (ASCII case folding; Korean is unaffected). -/
def lowerStr (s : String) : String := String.mk (s.toList.map Char.toLower)

/-- The synonym word lists of `DiaryEmotionService._normalize_emotion`
(ai/service.py); that normalisation runs only inside the AI client, never in
the aggregation path. -/
def positiveSynonyms : List String :=
  ["긍정", "positive", "happy", "joy", "기쁨", "행복"]

def negativeSynonyms : List String :=
  ["부정", "negative", "sad", "angry", "슬픔", "분노"]

/-- Check `word in emotion_lower` over both synonym lists. -/
def contains_synonym (s : String) : Bool :=
  (positiveSynonyms ++ negativeSynonyms).any
    (fun w => strContains (lowerStr s) w)

/-- One row whose extraction raises makes the whole loop raise, whatever the
accumulated counter is. -/
theorem statsLoop_error_of_mem (r : Rep) (e : PyErr)
    (he : extract_label r = .error e) :
    ∀ (rows : List Rep), r ∈ rows →
      ∀ c, ∃ e', statsLoop rows c = .error e' := by
  intro rows
  induction rows with
  | nil => intro hmem; cases hmem
  | cons h t ih =>
    intro hmem c
    rcases List.mem_cons.mp hmem with rfl | hmem'
    · exact ⟨e, by simp [statsLoop, he]⟩
    · cases hx : extract_label h with
      | error e'' => exact ⟨e'', by simp [statsLoop, hx]⟩
      | ok v =>
        cases v with
        | none =>
          obtain ⟨e', h'⟩ := ih hmem' c
          exact ⟨e', by simp [statsLoop, hx, h']⟩
        | some l =>
          obtain ⟨e', h'⟩ := ih hmem' (bump c l)
          exact ⟨e', by simp [statsLoop, hx, h']⟩

/-- C10: sentiment aggregation is not total - if any entry's payload carries
a main_emotion that is (after the `str(e).strip()` coercion of
`_norm_emotion`) a non-empty string outside the three fixed labels and not
containing a recognised synonym word, the aggregation raises instead of
skipping that entry, so one malformed row fails the whole summary. -/
theorem c10_unknown_label_fails_aggregation (rows : List Rep) (r : Rep)
    (s : String)
    (hmem : r ∈ rows)
    (hme : extract_me r = some (JVal.jstr s))
    (hnonempty : pyStrip s ≠ "")
    (hnotlabel : mainEmotionValues.contains (pyStrip s) = false)
    (_hsyn : contains_synonym s = false) :
    ∃ e, emotion_stats rows = .error e := by
  have he : extract_label r =
      .error (.valueError ("emotion value not allowed: " ++ pyStrip s)) := by
    unfold extract_label
    rw [hme]
    unfold norm_emotion
    simp only [pyToStr]
    rw [if_neg hnonempty, if_neg]
    simpa using hnotlabel
  exact statsLoop_error_of_mem r _ he rows hmem []

/-- Witness for C10: a single stored payload with main_emotion 화남 makes the
summary fail. -/
theorem c10_unknown_label_fails_aggregation_witness :
    ∃ e, emotion_stats [Rep.robj [("main_emotion", JVal.jstr "화남")]] = .error e :=
  c10_unknown_label_fails_aggregation _ _ "화남" (List.mem_singleton.mpr rfl)
    rfl (by decide) (by decide) (by decide)

end Diary2

namespace Diary2

/-! ### Concrete fixtures for the diary pipeline claims -/

/-- An empty database whose next diary id is 1. -/
def dbEmpty : DB := ⟨[], [], [], [], 1⟩

/-- A create request whose stripped content (2 characters) violates the
minimum-length rule, with one tag and one image URL. -/
def payloadShort : DiaryCreatePayload :=
  ⟨7, "제목", "짧다", ["일상"], ["http://img/1.png"], none⟩

/-- C1: the length validation of DiaryService.create runs only AFTER the
entry/tags/images transaction has committed, so the too-short request does
raise the 422 validation error, but the Entry row, the tag-link row and the
image row it created are left in the database - refuting "no write occurs"
(the check `len(content_txt) < 10` also accepts a body of exactly 10
characters, although its own error message demands more than 10). -/
theorem c1_validation_after_commit :
    (service_create dbEmpty payloadShort .timeout).2 =
      .error (.httpError 422 "content must be longer than 10 characters") ∧
    (service_create dbEmpty payloadShort .timeout).1.diaries =
      [⟨1, "제목", "짧다", .rnone, 7⟩] ∧
    (service_create dbEmpty payloadShort .timeout).1.tag_links = [(1, "일상")] ∧
    (service_create dbEmpty payloadShort .timeout).1.images =
      [⟨1, 1, "http://img/1.png"⟩] :=
  ⟨rfl, rfl, rfl, rfl⟩

/-- A database holding one diary that currently carries the tag 일상. -/
def dbTagged : DB := ⟨[⟨1, "제목", "내용", .rnone, 7⟩], ["일상"], [(1, "일상")], [], 2⟩

/-- C2: replacing an entry's tags with the EMPTY list does not clear them -
because the dedup block is indented inside the `for s in names` loop, the
local `cleaned` is unbound for an empty list and replace_tags raises
NameError; the transaction rolls the clear back, so the existing tag link
survives and the repeated call can never become a no-op. -/
theorem c2_empty_tag_list_raises :
    replace_tags dbTagged 1 [] = (dbTagged, .error (.nameError "cleaned")) ∧
    dbTagged.tag_links = [(1, "일상")] :=
  ⟨rfl, rfl⟩

/-- A create request with a pre-supplied enrichment payload (a JSON object
with the positive label). -/
def payloadPreEA : DiaryCreatePayload :=
  ⟨7, "제목", "날씨가 좋았다. 산책을 갔다", [], [],
   some [("main_emotion", JVal.jstr "긍정")]⟩

/-- C4: creating an entry with a pre-supplied enrichment payload does NOT
persist it as a JSON object - `_dumps_ea` converts the dict to a JSON-encoded
string, the dict-only guard of the overridden `Diary.save` then raises
ValueError inside the transaction, and the create fails with nothing
persisted (the repository's own test expects such a create to return 201). -/
theorem c4_presupplied_payload_create_fails :
    service_create dbEmpty payloadPreEA .disabled =
      (dbEmpty, .error (.valueError "emotion_analysis_report must be a dict")) ∧
    dumps_ea payloadPreEA.emotion_analysis_report =
      .rstr "\x7b\"main_emotion\": \"긍정\"\x7d" :=
  ⟨rfl, rfl⟩

end Diary2

namespace Diary2

/-! ### C6: the dispatcher and per-target failures -/

/-- Two SMS/email targets for the dispatcher fixtures. -/
def targetA : Target := ⟨1, "alpha", "010-1111-1111", "주말에 휴식하세요", .SMS⟩

def targetB : Target := ⟨2, "beta", "010-2222-2222", "주말에 휴식하세요", .EMAIL⟩

/-- The transport behaviour where the first target's underlying send raises
and every other send succeeds. -/
def failFirstTransport : Nat → SendOutcome :=
  fun i => if i = 0 then .raises else .success

/-- C6 counterexample: the first target's adapter send raises, the remaining
target is still attempted, but the failing user is NOT excluded from the
returned sent list - the dispatcher appends every target unconditionally, so
the claim's "excluded from the sent list" is false. -/
theorem c6_failed_target_not_excluded :
    adapter_send (failFirstTransport 0) =
      .error (.valueError "transport send failed") ∧
    send_notifications [targetA, targetB] failFirstTransport =
      .ok [(1, "alpha"), (2, "beta")] :=
  ⟨rfl, rfl⟩

theorem send_sms_swallows (o : SendOutcome) : send_sms o = .ok () := by
  cases o <;> rfl

theorem send_email_swallows (o : SendOutcome) : send_email o = .ok () := by
  cases o <;> rfl

theorem send_loop_all (transport : Nat → SendOutcome) :
    ∀ (ts : List Target) (i : Nat) (sent : List (Nat × String)),
      send_loop transport i ts sent =
        .ok (sent ++ ts.map (fun t => (t.user_id, t.nickname))) := by
  intro ts
  induction ts with
  | nil => intro i sent; simp [send_loop]
  | cons t rest ih =>
    intro i sent
    have hsend :
        (match t.notification_type with
          | .PUSH => send_push_notification (transport i)
          | .SMS => send_sms (transport i)
          | .EMAIL => send_email (transport i)) = .ok () := by
      cases t.notification_type with
      | PUSH => rfl
      | SMS => exact send_sms_swallows _
      | EMAIL => exact send_email_swallows _
    simp [send_loop, hsend, ih]

/-- C6 amended: every delivery attempt is independent in the sense that a
failure of the underlying send is caught INSIDE the channel adapter and
logged, so the remaining targets are still attempted; but the returned sent
list is not filtered - it always lists every target, failed or not (it
records attempts, not adapter-reported successes). -/
theorem c6_dispatcher_lists_every_target (targets : List Target)
    (transport : Nat → SendOutcome) :
    send_notifications targets transport =
      .ok (targets.map (fun t => (t.user_id, t.nickname))) := by
  have h := send_loop_all transport targets 0 []
  simpa [send_notifications] using h

end Diary2

namespace Diary2

/-! ### Lemmas about the targeting run -/

/-- Inversion for a successful process_user step: the stats and user tables
are untouched, and an emitted target belongs to the processed user, who must
have passed the weekly negative check. -/
theorem process_user_inv (db : NotifDB) (wd : Nat) (u : NUser)
    (db' : NotifDB) (t? : Option Target)
    (h : process_user db wd u = .ok (db', t?)) :
    db'.stats = db.stats ∧ db'.users = db.users ∧
    (∀ t, t? = some t → t.user_id = u.id ∧
      check_weekly_negative_emotions db.stats u.id = .ok true) := by
  unfold process_user at h
  split at h
  · exact Except.noConfusion h
  · injection h with h'
    injection h' with h1 h2
    subst h1; subst h2
    exact ⟨rfl, rfl, fun t ht => Option.noConfusion ht⟩
  · rename_i hc
    split at h
    · exact Except.noConfusion h
    · injection h with h'
      injection h' with h1 h2
      subst h1; subst h2
      exact ⟨rfl, rfl, fun t ht => Option.noConfusion ht⟩
    · rename_i un hun
      split at h
      · injection h with h'
        injection h' with h1 h2
        subst h1; subst h2
        exact ⟨rfl, rfl, fun t ht => Option.noConfusion ht⟩
      · rename_i current hcur
        split at h
        · exact Except.noConfusion h
        · exact Except.noConfusion h
        · rename_i n hres
          injection h with h'
          injection h' with h1 h2
          subst h1; subst h2
          refine ⟨?_, ?_, ?_⟩
          · by_cases hid : un.notification_id ≠ n.id <;> simp [hid]
          · by_cases hid : un.notification_id ≠ n.id <;> simp [hid]
          · intro t ht
            cases ht
            exact ⟨rfl, hc⟩

/-- Soundness of the targeting sweep: every emitted target was already
accumulated or belongs to a swept user who passed the weekly negative check
(evaluated against the stats table, which the sweep never modifies). -/
theorem targets_loop_inv (wd : Nat) :
    ∀ (us : List NUser) (db : NotifDB) (acc : List Target)
      (db' : NotifDB) (ts : List Target),
      targets_loop wd us db acc = .ok (db', ts) →
      ∀ t ∈ ts, t ∈ acc ∨ ∃ u ∈ us, t.user_id = u.id ∧
        check_weekly_negative_emotions db.stats u.id = .ok true := by
  intro us
  induction us with
  | nil =>
    intro db acc db' ts h t ht
    injection h with h'
    injection h' with h1 h2
    subst h2
    exact .inl ht
  | cons u rest ih =>
    intro db acc db' ts h t ht
    unfold targets_loop at h
    split at h
    · exact Except.noConfusion h
    · rename_i db1 hp
      obtain ⟨hstats, _, _⟩ := process_user_inv db wd u db1 none hp
      rcases ih db1 acc db' ts h t ht with hacc | ⟨u', hu', hid, hchk⟩
      · exact .inl hacc
      · exact .inr ⟨u', List.mem_cons_of_mem _ hu', hid, hstats ▸ hchk⟩
    · rename_i db1 t1 hp
      obtain ⟨hstats, _, hemit⟩ := process_user_inv db wd u db1 (some t1) hp
      rcases ih db1 (acc ++ [t1]) db' ts h t ht with hacc | ⟨u', hu', hid, hchk⟩
      · rcases List.mem_append.mp hacc with h1 | h2
        · exact .inl h1
        · have ht1 : t = t1 := List.mem_singleton.mp h2
          obtain ⟨hid2, hchk2⟩ := hemit t1 rfl
          exact .inr ⟨u, List.mem_cons_self .., by rw [ht1]; exact hid2, hchk2⟩
      · exact .inr ⟨u', List.mem_cons_of_mem _ hu', hid, hstats ▸ hchk⟩

/-- A single-user sweep over a passing user with an existing assignment:
the assignment is overwritten exactly when the resolved definition differs,
and the user is emitted. -/
theorem single_user_run (db : NotifDB) (wd : Nat) (u : NUser)
    (un : UserNotificationRow) (current n : NotificationRow)
    (husers : db.users = [u])
    (hrecv : u.receive_notifications = true)
    (hcheck : check_weekly_negative_emotions db.stats u.id = .ok true)
    (hun : get_or_none_user_notif db.user_notifications u.id = .ok (some un))
    (hfind : find_notification db.notifications un.notification_id = some current)
    (hres : get_or_none_notification db.notifications wd
      current.notification_type = .ok (some n)) :
    get_notification_targets db wd =
      .ok ((if un.notification_id ≠ n.id then
              { db with user_notifications :=
                  overwrite_assignment db.user_notifications un n.id }
            else db),
           [⟨u.id, u.nickname, u.phonenumber, n.content, n.notification_type⟩]) := by
  have hpu : process_user db wd u =
      .ok ((if un.notification_id ≠ n.id then
              { db with user_notifications :=
                  overwrite_assignment db.user_notifications un n.id }
            else db),
           some ⟨u.id, u.nickname, u.phonenumber, n.content,
                 n.notification_type⟩) := by
    simp only [process_user, hcheck, hun, hfind, hres]
  have hfilter : db.users.filter (fun v => v.receive_notifications) = [u] := by
    rw [husers]
    simp [List.filter, hrecv]
  unfold get_notification_targets
  rw [hfilter]
  unfold targets_loop
  rw [hpu]
  rfl

/-- A single-user sweep over a passing user with no assignment row: the user
is skipped and the state - in particular the assignment table - is unchanged. -/
theorem single_user_run_skip (db : NotifDB) (wd : Nat) (u : NUser)
    (husers : db.users = [u])
    (hrecv : u.receive_notifications = true)
    (hcheck : check_weekly_negative_emotions db.stats u.id = .ok true)
    (hnone : get_or_none_user_notif db.user_notifications u.id = .ok none) :
    get_notification_targets db wd = .ok (db, []) := by
  have hpu : process_user db wd u = .ok (db, none) := by
    simp only [process_user, hcheck, hnone]
  have hfilter : db.users.filter (fun v => v.receive_notifications) = [u] := by
    rw [husers]
    simp [List.filter, hrecv]
  unfold get_notification_targets
  rw [hfilter]
  unfold targets_loop
  rw [hpu]
  rfl

/-! ### Fixtures for the targeting claims -/

/-- A notifications-enabled user. -/
def userOn : NUser := ⟨1, "tester", "010-0000-0000", true⟩

/-- Today's weekly negative stat row with frequency 5 (at threshold). -/
def statFreq5 : EmotionStatRow := ⟨1, weeklyValue, negativeValue, 5, true⟩

/-- Today's weekly negative stat row with frequency 4 (below threshold). -/
def statFreq4 : EmotionStatRow := ⟨1, weeklyValue, negativeValue, 4, true⟩

/-- Master notification rows for weekday 0 on every channel. -/
def catalogueDay0 : List NotificationRow :=
  [⟨10, 0, "월요일 메시지", .PUSH⟩, ⟨11, 0, "월요일 메시지", .EMAIL⟩,
   ⟨12, 0, "월요일 메시지", .SMS⟩]

/-- A state whose only user passes the threshold but has no assignment row. -/
def stateNoAssignment : NotifDB := ⟨[userOn], [statFreq5], catalogueDay0, []⟩

/-- C5 counterexample: a user selected by the sentiment threshold
(weekly negative count 5) but without an existing UserNotification row is
skipped outright - the run neither creates an assignment for them nor emits
them as a delivery target, refuting the create-if-absent upsert. -/
theorem c5_no_assignment_never_created :
    check_weekly_negative_emotions stateNoAssignment.stats userOn.id =
      .ok true ∧
    get_notification_targets stateNoAssignment 0 =
      .ok (stateNoAssignment, []) ∧
    stateNoAssignment.user_notifications = [] :=
  ⟨rfl, rfl, rfl⟩

/-- C5 amended: the targeting run never creates an assignment.  A
threshold-passing user is processed only when an assignment row already
exists: then the run overwrites it exactly when the resolved definition
differs from the current one and emits the user as a delivery target; a
threshold-passing user without an assignment row is skipped and the state is
returned unchanged.  (Stated for a run over that user.) -/
theorem c5_upsert_is_overwrite_only (db : NotifDB) (wd : Nat) (u : NUser)
    (husers : db.users = [u])
    (hrecv : u.receive_notifications = true)
    (hcheck : check_weekly_negative_emotions db.stats u.id = .ok true) :
    (get_or_none_user_notif db.user_notifications u.id = .ok none →
       get_notification_targets db wd = .ok (db, [])) ∧
    (∀ (un : UserNotificationRow) (current n : NotificationRow),
       get_or_none_user_notif db.user_notifications u.id = .ok (some un) →
       find_notification db.notifications un.notification_id = some current →
       get_or_none_notification db.notifications wd
         current.notification_type = .ok (some n) →
       ∃ db', get_notification_targets db wd =
           .ok (db', [⟨u.id, u.nickname, u.phonenumber, n.content,
                       n.notification_type⟩]) ∧
         db'.user_notifications =
           (if un.notification_id ≠ n.id then
              overwrite_assignment db.user_notifications un n.id
            else db.user_notifications)) := by
  constructor
  · intro hnone
    exact single_user_run_skip db wd u husers hrecv hcheck hnone
  · intro un current n hun hfind hres
    refine ⟨_, single_user_run db wd u un current n husers hrecv hcheck
      hun hfind hres, ?_⟩
    by_cases hid : un.notification_id ≠ n.id <;> simp [hid]

/-- The assignment row of the fixture user, currently pointing at the
weekday-0 PUSH notification. -/
def unRow : UserNotificationRow := ⟨100, 1, 10⟩

/-- Push notifications for weekdays 0 and 1. -/
def cataloguePush : List NotificationRow :=
  [⟨10, 0, "월요일 메시지", .PUSH⟩, ⟨21, 1, "화요일 메시지", .PUSH⟩]

/-- A state whose only user passes the threshold and has an assignment. -/
def stateAssigned : NotifDB := ⟨[userOn], [statFreq5], cataloguePush, [unRow]⟩

/-- Witness for the amended C5: running on weekday 1 against the assigned
fixture overwrites the assignment (10 to 21) and emits the user. -/
theorem c5_upsert_is_overwrite_only_witness :
    ∃ db', get_notification_targets stateAssigned 1 =
        .ok (db', [⟨1, "tester", "010-0000-0000", "화요일 메시지", .PUSH⟩]) ∧
      db'.user_notifications =
        (if unRow.notification_id ≠ (21 : Nat) then
           overwrite_assignment stateAssigned.user_notifications unRow 21
         else stateAssigned.user_notifications) :=
  (c5_upsert_is_overwrite_only stateAssigned 1 userOn rfl rfl rfl).2
    unRow ⟨10, 0, "월요일 메시지", .PUSH⟩ ⟨21, 1, "화요일 메시지", .PUSH⟩
    rfl rfl rfl

/-- A state with one enabled user at frequency 4 who has an assignment. -/
def stateFreq4Db : NotifDB := ⟨[userOn], [statFreq4], catalogueDay0, [unRow]⟩

/-- C9 counterexample: an enabled user whose weekly negative count is 5 is
NOT emitted as a target when they have no assignment row, so "count 5 is
selected as a target" fails as stated. -/
theorem c9_freq5_without_assignment_not_selected :
    check_weekly_negative_emotions stateNoAssignment.stats 1 = .ok true ∧
    get_notification_targets stateNoAssignment 0 =
      .ok (stateNoAssignment, []) :=
  ⟨rfl, rfl⟩

/-- C9 amended: (a) a user all of whose matching weekly-negative-today stat
rows have frequency 4 is never emitted by any successful run; (b) a user
whose unique matching stat row has frequency 5 IS emitted, provided they are
the swept user, notifications-enabled, and already hold an assignment row
resolving to a channel that has a master notification for today's weekday. -/
theorem c9_threshold_behaviour (db : NotifDB) (wd : Nat) :
    (∀ (uid : Nat) (db' : NotifDB) (ts : List Target),
       (∀ s ∈ db.stats, stat_filter uid s = true → s.frequency = 4) →
       get_notification_targets db wd = .ok (db', ts) →
       ∀ t ∈ ts, t.user_id ≠ uid) ∧
    (∀ (u : NUser) (s : EmotionStatRow) (un : UserNotificationRow)
       (current n : NotificationRow),
       db.users = [u] →
       u.receive_notifications = true →
       get_or_none_stat db.stats u.id = .ok (some s) →
       s.frequency = 5 →
       get_or_none_user_notif db.user_notifications u.id = .ok (some un) →
       find_notification db.notifications un.notification_id = some current →
       get_or_none_notification db.notifications wd
         current.notification_type = .ok (some n) →
       ∃ db', get_notification_targets db wd =
         .ok (db', [⟨u.id, u.nickname, u.phonenumber, n.content,
                     n.notification_type⟩])) := by
  constructor
  · intro uid db' ts hfreq hok t ht htid
    rcases targets_loop_inv wd _ db [] db' ts hok t ht with hacc |
      ⟨u, _, hid, hchk⟩
    · cases hacc
    · have huid : u.id = uid := by rw [← hid, htid]
      rw [huid] at hchk
      unfold check_weekly_negative_emotions at hchk
      cases hg : get_or_none_stat db.stats uid with
      | error e => rw [hg] at hchk; cases hchk
      | ok v =>
        rw [hg] at hchk
        cases v with
        | none => simp [Except.map] at hchk
        | some s =>
          simp only [Except.map, Except.ok.injEq] at hchk
          have hle : (5 : Int) ≤ s.frequency := of_decide_eq_true hchk
          have hsmem : s ∈ db.stats.filter (stat_filter uid) := by
            unfold get_or_none_stat at hg
            split at hg
            · exact Option.noConfusion (Except.ok.inj hg)
            · rename_i s' heq
              rw [heq]
              exact (Option.some.inj (Except.ok.inj hg)) ▸
                List.mem_singleton.mpr rfl
            · exact Except.noConfusion hg
          obtain ⟨hsin, hsf⟩ := List.mem_filter.mp hsmem
          have h4 : s.frequency = 4 := hfreq s hsin hsf
          rw [h4] at hle
          exact absurd hle (by norm_num)
  · intro u s un current n husers hrecv hstat hfreq hun hfind hres
    have hcheck : check_weekly_negative_emotions db.stats u.id = .ok true := by
      unfold check_weekly_negative_emotions
      rw [hstat]
      simp [Except.map, hfreq]
    exact ⟨_, single_user_run db wd u un current n husers hrecv hcheck
      hun hfind hres⟩

/-- Witness for the amended C9: the frequency-4 fixture run selects nobody,
and the frequency-5 fixture with an assignment is emitted on weekday 1. -/
theorem c9_threshold_behaviour_witness :
    (∀ t ∈ ([] : List Target), t.user_id ≠ 1) ∧
    (∃ db', get_notification_targets stateAssigned 1 =
       .ok (db', [⟨1, "tester", "010-0000-0000", "화요일 메시지", .PUSH⟩])) :=
  ⟨(c9_threshold_behaviour stateFreq4Db 0).1 1 stateFreq4Db []
      (fun s hs _ => by
        have hss := List.mem_singleton.mp hs
        rw [hss]
        rfl)
      rfl,
   (c9_threshold_behaviour stateAssigned 1).2 userOn statFreq5 unRow
      ⟨10, 0, "월요일 메시지", .PUSH⟩ ⟨21, 1, "화요일 메시지", .PUSH⟩
      rfl rfl rfl rfl rfl rfl rfl⟩

/-! ### Forward computation of DiaryService.create on the success paths -/

/-- The tag-link rows of one diary. -/
def links_of (db : DB) (did : Nat) : List (Nat × String) :=
  db.tag_links.filter (fun l => l.1 = did)

/-- The image rows of one diary. -/
def images_of (db : DB) (did : Nat) : List ImageRow :=
  db.images.filter (fun i => i.diary_id = did)

/-- The diary row repo_create inserts for a payload without a pre-supplied
report. -/
def inserted_row (db : DB) (p : DiaryCreatePayload) : DiaryRow :=
  ⟨db.next_id, p.title, p.content, .rnone, p.user_id⟩

def inserted_db (db : DB) (p : DiaryCreatePayload) : DB :=
  { db with diaries := db.diaries ++ [inserted_row db p]
            next_id := db.next_id + 1 }

/-- The committed state after step 1 of DiaryService.create (entry plus
children), for a payload without a pre-supplied report. -/
def post_children (db : DB) (p : DiaryCreatePayload) : DB :=
  let db1 := inserted_db db p
  let db2 :=
    match p.tags with
    | [] => db1
    | _ :: _ => replace_tags_effect db1 db.next_id (cleaned_tags p.tags)
  match p.image_urls with
  | [] => db2
  | _ :: _ => replace_images db2 db.next_id p.image_urls

/-- The state after the AI step also wrote its report back. -/
def post_update (db : DB) (p : DiaryCreatePayload) (res : AIResult) : DB :=
  { post_children db p with
    diaries := (post_children db p).diaries.map
      (fun d => if d.id = db.next_id then
         { d with emotion_analysis_report := .robj res.report } else d) }

theorem repo_create_none (db : DB) (p : DiaryCreatePayload)
    (hear : p.emotion_analysis_report = none) :
    repo_create db p = .ok (inserted_db db p, db.next_id) := by
  unfold repo_create inserted_db inserted_row
  rw [hear]
  rfl

/-- On a valid payload without a pre-supplied report, a run whose AI step
produces no result (disabled, timed out, or failed) ends in the plain
re-read of the committed state. -/
theorem service_create_no_ai_eq (db : DB) (p : DiaryCreatePayload)
    (ai : AIOutcome)
    (hear : p.emotion_analysis_report = none)
    (hvalid : ¬(pyStrip p.content ≠ "" ∧ (pyStrip p.content).length < 10))
    (hai : ai = .disabled ∨ ai = .timeout ∨ ai = .failure) :
    service_create db p ai = fresh_response (post_children db p) db.next_id := by
  have hrc := repo_create_none db p hear
  rcases hai with rfl | rfl | rfl <;>
    (simp only [service_create, hrc]
     rw [if_neg hvalid]
     simp only [hear, ear_truthy]
     rfl)

/-- On a valid payload without a pre-supplied report whose AI step returns a
result in time, the run writes the report back and splices it over the
re-read response. -/
theorem service_create_ok_eq (db : DB) (p : DiaryCreatePayload) (res : AIResult)
    (hear : p.emotion_analysis_report = none)
    (hvalid : ¬(pyStrip p.content ≠ "" ∧ (pyStrip p.content).length < 10)) :
    service_create db p (.ok res) =
      (match fresh_response (post_update db p res) db.next_id with
       | (db5, .ok resp) =>
         (db5, .ok { resp with emotion_analysis_report := .robj res.report })
       | other => other) := by
  have hrc := repo_create_none db p hear
  simp only [service_create, hrc]
  rw [if_neg hvalid]
  simp only [hear, ear_truthy]
  rfl

/-- Inversion of a successful re-read. -/
theorem fresh_response_ok_inv (db : DB) (did : Nat) (db' : DB)
    (resp : DiaryResponseM)
    (h : fresh_response db did = (db', .ok resp)) :
    ∃ d, find_diary db did = some d ∧ d.id = did ∧
      resp = to_diary_response db d ∧ db' = db := by
  unfold fresh_response at h
  split at h
  · rename_i d hd
    injection h with h1 h2
    exact ⟨d, hd, by simpa using List.find?_some hd, (Except.ok.inj h2).symm,
           h1.symm⟩
  · injection h with h1 h2
    exact Except.noConfusion h2

theorem post_children_diaries (db : DB) (p : DiaryCreatePayload) :
    (post_children db p).diaries = db.diaries ++ [inserted_row db p] := by
  unfold post_children
  cases p.tags <;> cases p.image_urls <;> rfl

theorem post_children_tag_links (db : DB) (p : DiaryCreatePayload) :
    (post_children db p).tag_links =
      (match p.tags with
       | [] => db.tag_links
       | _ :: _ =>
         db.tag_links.filter (fun l => l.1 ≠ db.next_id)
           ++ (cleaned_tags p.tags).map (fun n => (db.next_id, n))) := by
  unfold post_children
  cases p.tags <;> cases p.image_urls <;> rfl

theorem post_children_images (db : DB) (p : DiaryCreatePayload) :
    (post_children db p).images =
      (match p.image_urls with
       | [] => db.images
       | _ :: _ =>
         db.images.filter (fun i => i.diary_id ≠ db.next_id)
           ++ image_rows db.next_id 1 (cleaned_images p.image_urls)) := by
  unfold post_children
  cases p.tags <;> cases p.image_urls <;> rfl

theorem find_append_fresh (rows : List DiaryRow) (row : DiaryRow) (did : Nat)
    (hfresh : ∀ d ∈ rows, d.id ≠ did) (hrow : row.id = did) :
    (rows ++ [row]).find? (fun d => d.id = did) = some row := by
  induction rows with
  | nil => simp [List.find?, hrow]
  | cons d rest ih =>
    have hd : d.id ≠ did := hfresh d (List.mem_cons_self ..)
    rw [List.cons_append, List.find?_cons_of_neg _ (by simpa using hd)]
    exact ih (fun d' hd' => hfresh d' (List.mem_cons_of_mem _ hd'))

/-- Clearing then filtering for the same owner leaves nothing. -/
theorem filter_cleared (links : List (Nat × String)) (did : Nat) :
    (links.filter (fun l => l.1 ≠ did)).filter (fun l => l.1 = did) = [] := by
  induction links with
  | nil => rfl
  | cons l rest ih =>
    by_cases h : l.1 = did <;> simp [List.filter, h, ih]

theorem filter_inserted (cleaned : List String) (did : Nat) :
    (cleaned.map (fun n => (did, n))).filter
        (fun l : Nat × String => l.1 = did) =
      cleaned.map (fun n => (did, n)) := by
  induction cleaned with
  | nil => rfl
  | cons c rest ih => simp [List.filter, ih]

theorem filter_image_cleared (imgs : List ImageRow) (did : Nat) :
    (imgs.filter (fun i => i.diary_id ≠ did)).filter
      (fun i => i.diary_id = did) = [] := by
  induction imgs with
  | nil => rfl
  | cons i rest ih =>
    by_cases h : i.diary_id = did <;> simp [List.filter, h, ih]

theorem filter_image_rows (did : Nat) :
    ∀ (k : Nat) (urls : List String),
      (image_rows did k urls).filter (fun i => i.diary_id = did) =
        image_rows did k urls := by
  intro k urls
  induction urls generalizing k with
  | nil => rfl
  | cons u rest ih => simp [image_rows, List.filter, ih]

theorem fresh_filter_nil {α} (p : α → Bool) :
    ∀ (l : List α), (∀ a ∈ l, ¬ p a = true) → l.filter p = [] := by
  intro l h
  exact List.filter_eq_nil_iff.mpr h

theorem post_children_links (db : DB) (p : DiaryCreatePayload)
    (hfl : ∀ l ∈ db.tag_links, l.1 ≠ db.next_id) :
    links_of (post_children db p) db.next_id =
      (cleaned_tags p.tags).map (fun n => (db.next_id, n)) := by
  unfold links_of
  rw [post_children_tag_links]
  cases ht : p.tags with
  | nil =>
    have : cleaned_tags [] = [] := rfl
    rw [this]
    exact fresh_filter_nil _ _ (fun l hl => by simpa using hfl l hl)
  | cons a rest =>
    rw [List.filter_append, filter_cleared, filter_inserted]
    rfl

theorem post_children_images_of (db : DB) (p : DiaryCreatePayload)
    (hfi : ∀ i ∈ db.images, i.diary_id ≠ db.next_id) :
    images_of (post_children db p) db.next_id =
      image_rows db.next_id 1 (cleaned_images p.image_urls) := by
  unfold images_of
  rw [post_children_images]
  cases hi : p.image_urls with
  | nil =>
    have : cleaned_images [] = [] := rfl
    rw [this]
    exact fresh_filter_nil _ _ (fun i hi' => by simpa using hfi i hi')
  | cons a rest =>
    rw [List.filter_append, filter_image_cleared, filter_image_rows]
    rfl

/-- C3: if the bounded enrichment call times out, a valid create (stripped
content empty or at least 10 characters, no pre-supplied report) still
returns success; the entry and its children are committed (the inserted row
is found by the re-read, the tag links are exactly the cleaned tags, the
image rows exactly the normalised URLs with orders 1..N), and the stored and
returned enrichment payload is absent rather than an error. -/
theorem c3_enrichment_timeout_still_succeeds (db : DB) (p : DiaryCreatePayload)
    (hvalid : ¬(pyStrip p.content ≠ "" ∧ (pyStrip p.content).length < 10))
    (hear : p.emotion_analysis_report = none)
    (hfd : ∀ d ∈ db.diaries, d.id ≠ db.next_id)
    (hfl : ∀ l ∈ db.tag_links, l.1 ≠ db.next_id)
    (hfi : ∀ i ∈ db.images, i.diary_id ≠ db.next_id) :
    ∃ db' resp, service_create db p .timeout = (db', .ok resp) ∧
      resp.emotion_analysis_report = .rnone ∧
      find_diary db' db.next_id = some (inserted_row db p) ∧
      links_of db' db.next_id =
        (cleaned_tags p.tags).map (fun n => (db.next_id, n)) ∧
      images_of db' db.next_id =
        image_rows db.next_id 1 (cleaned_images p.image_urls) := by
  have heq := service_create_no_ai_eq db p .timeout hear hvalid (by simp)
  have hfind : find_diary (post_children db p) db.next_id =
      some (inserted_row db p) := by
    unfold find_diary
    rw [post_children_diaries]
    exact find_append_fresh db.diaries (inserted_row db p) db.next_id hfd rfl
  refine ⟨post_children db p, to_diary_response (post_children db p)
    (inserted_row db p), ?_, rfl, hfind, post_children_links db p hfl,
    post_children_images_of db p hfi⟩
  rw [heq]
  unfold fresh_response
  rw [hfind]

/-- Witness for C3: the end-to-end fixture create (long content, two tags,
two image URLs) under an AI timeout. -/
theorem c3_enrichment_timeout_still_succeeds_witness :
    ∃ db' resp,
      service_create dbEmpty
          ⟨7, "오늘", "날씨가 좋았다. 산책을 갔다", ["일상", "행복"],
           ["http://img/1.png", "http://img/2.png"], none⟩ .timeout =
        (db', .ok resp) ∧
      resp.emotion_analysis_report = .rnone ∧
      find_diary db' dbEmpty.next_id =
        some (inserted_row dbEmpty
          ⟨7, "오늘", "날씨가 좋았다. 산책을 갔다", ["일상", "행복"],
           ["http://img/1.png", "http://img/2.png"], none⟩) ∧
      links_of db' dbEmpty.next_id =
        (cleaned_tags ["일상", "행복"]).map (fun n => (dbEmpty.next_id, n)) ∧
      images_of db' dbEmpty.next_id =
        image_rows dbEmpty.next_id 1
          (cleaned_images ["http://img/1.png", "http://img/2.png"]) :=
  c3_enrichment_timeout_still_succeeds dbEmpty
    ⟨7, "오늘", "날씨가 좋았다. 산책을 갔다", ["일상", "행복"],
     ["http://img/1.png", "http://img/2.png"], none⟩
    (by decide) rfl (by simp [dbEmpty]) (by simp [dbEmpty]) (by simp [dbEmpty])

/-! ### C8: the tag list of the create response -/

/-- The tag normalisation exactly as the spec sentence words it: trim each
name, drop empties, de-duplicate preserving first occurrence - with no comma
splitting and no reordering.  Stated only for comparison with the code. -/
def spec_normalized_tags (names : List String) : List String :=
  dedupFirst ((names.map pyStrip).filter (fun s => s ≠ ""))

/-- A valid create request whose single tag entry contains a comma. -/
def payloadComma : DiaryCreatePayload :=
  ⟨7, "제목", "날씨가 좋았다. 산책을 갔다", ["서울,부산"], [], none⟩

/-- C8 counterexample: the response's tag list is neither the input order nor
comma-preserving - replace_tags splits each entry on commas, and the
projection re-reads the tags through the name-ordered prefetch of Tag.Meta,
so the valid create with tags 서울,부산 (one entry) returns 부산, 서울,
while the spec-worded normalisation keeps the single entry unchanged. -/
theorem c8_response_tags_not_spec_normalized :
    (service_create dbEmpty payloadComma .timeout).2 =
      .ok ⟨1, 7, "제목", "날씨가 좋았다. 산책을 갔다", .rnone,
           ["부산", "서울"], []⟩ ∧
    spec_normalized_tags payloadComma.tags = ["서울,부산"] ∧
    (["부산", "서울"] : List String) ≠ ["서울,부산"] :=
  ⟨rfl, rfl, by decide⟩

theorem diary_tag_names_post (db : DB) (p : DiaryCreatePayload)
    (hfl : ∀ l ∈ db.tag_links, l.1 ≠ db.next_id) :
    diary_tag_names (post_children db p) db.next_id =
      sortNames (cleaned_tags p.tags) := by
  unfold diary_tag_names
  have h := post_children_links db p hfl
  unfold links_of at h
  rw [h, List.map_map]
  simp [Function.comp]

theorem diary_tag_names_post_update (db : DB) (p : DiaryCreatePayload)
    (res : AIResult)
    (hfl : ∀ l ∈ db.tag_links, l.1 ≠ db.next_id) :
    diary_tag_names (post_update db p res) db.next_id =
      sortNames (cleaned_tags p.tags) := by
  have hpu : (post_update db p res).tag_links =
      (post_children db p).tag_links := rfl
  unfold diary_tag_names
  rw [hpu]
  have h := post_children_links db p hfl
  unfold links_of at h
  rw [h, List.map_map]
  simp [Function.comp]

/-- C8 amended: for every successful create, the response's tag list is the
comma-split, stripped, empties-dropped, first-occurrence-de-duplicated form
of the input tag entries, SORTED BY TAG NAME (the projection re-reads tags
through the name-ordered prefetch declared by Tag.Meta), not in input
order. -/
theorem c8_created_tags_sorted (db : DB) (p : DiaryCreatePayload)
    (ai : AIOutcome) (db' : DB) (resp : DiaryResponseM)
    (hfl : ∀ l ∈ db.tag_links, l.1 ≠ db.next_id)
    (hok : service_create db p ai = (db', .ok resp)) :
    resp.tags = sortNames (cleaned_tags p.tags) := by
  cases hear : p.emotion_analysis_report with
  | some d =>
    have hrc : repo_create db p =
        .error (.valueError "emotion_analysis_report must be a dict") := by
      unfold repo_create
      rw [hear]
      rfl
    simp only [service_create, hrc] at hok
    exact Except.noConfusion (Prod.mk.injEq .. ▸ hok).2
  | none =>
    by_cases hval : (pyStrip p.content ≠ "" ∧ (pyStrip p.content).length < 10)
    · have hrc := repo_create_none db p hear
      simp only [service_create, hrc] at hok
      rw [if_pos hval] at hok
      exact Except.noConfusion (Prod.mk.injEq .. ▸ hok).2
    · cases ai with
      | ok res =>
        rw [service_create_ok_eq db p res hear hval] at hok
        rcases hfr : fresh_response (post_update db p res) db.next_id with
          ⟨db5, r⟩
        cases r with
        | error e =>
          rw [hfr] at hok
          exact Except.noConfusion (Prod.mk.injEq .. ▸ hok).2
        | ok r =>
          rw [hfr] at hok
          obtain ⟨d, hfind, hdid, hresp, hdb5⟩ :=
            fresh_response_ok_inv _ _ _ _ hfr
          have hresp2 : resp =
              { r with emotion_analysis_report := .robj res.report } :=
            ((Except.ok.inj (Prod.mk.injEq .. ▸ hok).2)).symm
          rw [hresp2, hresp]
          show diary_tag_names (post_update db p res) d.id = _
          rw [hdid]
          exact diary_tag_names_post_update db p res hfl
      | disabled =>
        rw [service_create_no_ai_eq db p _ hear hval (by simp)] at hok
        obtain ⟨d, hfind, hdid, hresp, hdb'⟩ :=
          fresh_response_ok_inv _ _ _ _ hok
        rw [hresp]
        show diary_tag_names (post_children db p) d.id = _
        rw [hdid]
        exact diary_tag_names_post db p hfl
      | timeout =>
        rw [service_create_no_ai_eq db p _ hear hval (by simp)] at hok
        obtain ⟨d, hfind, hdid, hresp, hdb'⟩ :=
          fresh_response_ok_inv _ _ _ _ hok
        rw [hresp]
        show diary_tag_names (post_children db p) d.id = _
        rw [hdid]
        exact diary_tag_names_post db p hfl
      | failure =>
        rw [service_create_no_ai_eq db p _ hear hval (by simp)] at hok
        obtain ⟨d, hfind, hdid, hresp, hdb'⟩ :=
          fresh_response_ok_inv _ _ _ _ hok
        rw [hresp]
        show diary_tag_names (post_children db p) d.id = _
        rw [hdid]
        exact diary_tag_names_post db p hfl

/-- The state the comma fixture commits. -/
def dbComma : DB :=
  ⟨[⟨1, "제목", "날씨가 좋았다. 산책을 갔다", .rnone, 7⟩], ["서울", "부산"],
   [(1, "서울"), (1, "부산")], [], 2⟩

/-- The response the comma fixture returns. -/
def respComma : DiaryResponseM :=
  ⟨1, 7, "제목", "날씨가 좋았다. 산책을 갔다", .rnone, ["부산", "서울"], []⟩

/-- Witness for the amended C8 at the comma fixture. -/
theorem c8_created_tags_sorted_witness :
    respComma.tags = sortNames (cleaned_tags payloadComma.tags) :=
  c8_created_tags_sorted dbEmpty payloadComma .timeout dbComma respComma
    (by simp [dbEmpty]) rfl

end Diary2
